import Mathlib

set_option maxRecDepth 100000

/-!
Verification of the response-normalization core of the LifeSciences
media-review backend: a shallow embedding, in Lean 4, of the Python source
under `api/` (schemas, legacy text parser, summary generator, orchestrator
validation, two-step locate protocol, video-id extraction), together with
theorems settling the specification's claims about it.

Strings are modelled as `List Char` (Python `str` is a sequence of code
points), bytes as `List Nat`, and Python floats as rationals `ℚ` (exact for
the decimal literals and comparisons the code performs).
-/

namespace LifeSciences

/-! ## Python string primitives

Each definition mirrors the behaviour of the corresponding Python `str`
method for the inputs the source can produce. -/

/-- Characters stripped by Python `str.strip()` (ASCII whitespace). -/
def isPySpace (c : Char) : Bool :=
  c = ' ' || c = '\t' || c = '\n' || c = '\r' || c = '\x0b' || c = '\x0c'

/-- Python `str.strip()`. -/
def pyStrip (s : List Char) : List Char :=
  ((s.dropWhile isPySpace).reverse.dropWhile isPySpace).reverse

/-- Python `str.lower()` restricted to ASCII (the only case arising here). -/
def pyLowerChar (c : Char) : Char :=
  if 'A' ≤ c ∧ c ≤ 'Z' then Char.ofNat (c.toNat + 32) else c

/-- Python `str.lower()`. -/
def pyLower (s : List Char) : List Char := s.map pyLowerChar

/-- Python `needle in haystack` substring containment. -/
def containsSub (haystack needle : List Char) : Bool :=
  match haystack with
  | [] => needle.isEmpty
  | _ :: t => needle.isPrefixOf haystack || containsSub t needle

/-- Python `s.split(sep)` for a single-character separator. -/
def splitChar (sep : Char) : List Char → List (List Char)
  | [] => [[]]
  | c :: t =>
    if c = sep then [] :: splitChar sep t
    else
      match splitChar sep t with
      | [] => [[c]]
      | h :: r => (c :: h) :: r

/-- Fuel-driven worker for multi-character `str.split`. -/
def splitStrGo (sep : List Char) : Nat → List Char → List (List Char)
  | _, [] => [[]]
  | 0, s => [s]
  | fuel + 1, c :: t =>
    if sep.isPrefixOf (c :: t) then
      [] :: splitStrGo sep fuel ((c :: t).drop sep.length)
    else
      match splitStrGo sep fuel t with
      | [] => [[c]]
      | h :: r => (c :: h) :: r

/-- Python `s.split(sep)` for a non-empty multi-character separator. -/
def splitStr (sep s : List Char) : List (List Char) :=
  splitStrGo sep s.length s

/-- Python `s.split(sep, 1)`: the part before and after the first
occurrence of a single-character separator, when present. -/
def splitFirstAt (sep : Char) : List Char → Option (List Char × List Char)
  | [] => none
  | c :: t =>
    if c = sep then some ([], t)
    else (splitFirstAt sep t).map (fun p => (c :: p.1, p.2))

/-- Python `line.split(":", 1)[1]` — everything after the first colon (the parser
only evaluates this on lines known to contain a colon). -/
def afterFirstColon (line : List Char) : List Char :=
  ((splitFirstAt ':' line).map Prod.snd).getD []

/-- Python `sep.join(parts)`. -/
def joinSep (sep : List Char) : List (List Char) → List Char
  | [] => []
  | [a] => a
  | a :: rest => a ++ sep ++ joinSep sep rest

/-- Python `"_".join(parts)` specialised to the single-character separator used by
the two-step protocol's id recovery. -/
def joinChar (sep : Char) : List (List Char) → List Char
  | [] => []
  | [a] => a
  | a :: rest => a ++ sep :: joinChar sep rest

/-- Decimal digit character, `d < 10`. -/
def decDigitChar (d : Nat) : Char := Char.ofNat (48 + d)

/-- Fuel-driven decimal rendering worker. -/
def natDecGo : Nat → Nat → List Char → List Char
  | 0, _, acc => acc
  | fuel + 1, n, acc =>
    if n < 10 then decDigitChar n :: acc
    else natDecGo fuel (n / 10) (decDigitChar (n % 10) :: acc)

/-- Python `f"{n}"` for a non-negative integer: decimal rendering. -/
def natDec (n : Nat) : List Char := natDecGo (n + 1) n []

/-! ## Domain model (`api/models/schemas.py`) -/

/-- The `Severity` enumeration, declaration order as in `schemas.py`. -/
inductive Severity where
  | LOW
  | MEDIUM
  | HIGH
  | CRITICAL
deriving DecidableEq

/-- Source `Severity.value` — the enumeration's text form. -/
def Severity.value : Severity → List Char
  | .LOW => "low".data
  | .MEDIUM => "medium".data
  | .HIGH => "high".data
  | .CRITICAL => "critical".data

/-- Python `list(Severity).index(s)` — position in declaration order. -/
def sevIndex : Severity → Nat
  | .LOW => 0
  | .MEDIUM => 1
  | .HIGH => 2
  | .CRITICAL => 3

/-- Python `list(Severity)`. -/
def severityAll : List Severity := [.LOW, .MEDIUM, .HIGH, .CRITICAL]

/-- The `IssueCategory` enumeration, declaration order as in `schemas.py`. -/
inductive IssueCategory where
  | MEDICAL_ACCURACY
  | CITATION_MISSING
  | MISLEADING_CLAIM
  | OUTDATED_INFORMATION
  | UNVERIFIED_STATEMENT
  | CONTRAINDICATION
  | DOSAGE_CONCERN
  | PRESENTATION_STYLE
  | WORDING_CONCERN
  | VISUAL_QUALITY
  | AUDIO_QUALITY
  | ACCESSIBILITY
  | PROFESSIONALISM
  | OTHER
deriving DecidableEq

/-- Source `IssueCategory.value`. -/
def IssueCategory.value : IssueCategory → List Char
  | .MEDICAL_ACCURACY => "medical_accuracy".data
  | .CITATION_MISSING => "citation_missing".data
  | .MISLEADING_CLAIM => "misleading_claim".data
  | .OUTDATED_INFORMATION => "outdated_information".data
  | .UNVERIFIED_STATEMENT => "unverified_statement".data
  | .CONTRAINDICATION => "contraindication".data
  | .DOSAGE_CONCERN => "dosage_concern".data
  | .PRESENTATION_STYLE => "presentation_style".data
  | .WORDING_CONCERN => "wording_concern".data
  | .VISUAL_QUALITY => "visual_quality".data
  | .AUDIO_QUALITY => "audio_quality".data
  | .ACCESSIBILITY => "accessibility".data
  | .PROFESSIONALISM => "professionalism".data
  | .OTHER => "other".data

/-- Python `list(IssueCategory)` — iteration order of the legacy category matcher. -/
def categoryAll : List IssueCategory :=
  [.MEDICAL_ACCURACY, .CITATION_MISSING, .MISLEADING_CLAIM,
   .OUTDATED_INFORMATION, .UNVERIFIED_STATEMENT, .CONTRAINDICATION,
   .DOSAGE_CONCERN, .PRESENTATION_STYLE, .WORDING_CONCERN, .VISUAL_QUALITY,
   .AUDIO_QUALITY, .ACCESSIBILITY, .PROFESSIONALISM, .OTHER]

/-- The `Location` record: normalized image coordinates. The pydantic bound
constraints (`ge=0.0, le=1.0`) live in the smart constructor `mkLocation`,
which models pydantic validation at construction. -/
structure Location where
  x : ℚ
  y : ℚ
deriving DecidableEq

/-- Pydantic construction of `Location`: `ge=0.0, le=1.0` on both fields;
out-of-range input raises `ValidationError` (here: `none`), values are
never clamped. -/
def mkLocation (x y : ℚ) : Option Location :=
  if 0 ≤ x ∧ x ≤ 1 ∧ 0 ≤ y ∧ y ≤ 1 then some ⟨x, y⟩ else none

/-- The `Issue` record of `schemas.py`. The pydantic `min_length=10` constraint
on `description` lives in `mkIssue`. -/
structure Issue where
  start_timestamp : List Char
  end_timestamp : List Char
  severity : Severity
  category : IssueCategory
  description : List Char
  context : Option (List Char)
  location : Option Location
deriving DecidableEq

/-- Pydantic construction of `Issue`: `description` must satisfy
`min_length=10`, otherwise validation fails. -/
def mkIssue (start_ts end_ts : List Char) (sev : Severity)
    (cat : IssueCategory) (desc : List Char) (ctx : Option (List Char))
    (loc : Option Location) : Option Issue :=
  if 10 ≤ desc.length then some ⟨start_ts, end_ts, sev, cat, desc, ctx, loc⟩
  else none

/-- The `AnalyzeResponse` record. `analysis_timestamp` is an opaque clock value
passed in by the caller (the code reads the wall clock, an external
effect). -/
structure AnalyzeResponse where
  video_id : List Char
  video_url : List Char
  analysis_timestamp : Nat
  issues : List Issue
  summary : List Char
  total_issues : Nat
deriving DecidableEq

/-- The `IssueWithoutLocation` record (two-step flow, phase 1). -/
structure IssueWithoutLocation where
  issue_id : List Char
  start_timestamp : List Char
  end_timestamp : List Char
  severity : Severity
  category : IssueCategory
  description : List Char
  context : Option (List Char)
deriving DecidableEq

/-- The `AnalyzeInitialResponse` record (two-step flow, phase 1). -/
structure AnalyzeInitialResponse where
  video_id : List Char
  video_url : List Char
  analysis_timestamp : Nat
  issues : List IssueWithoutLocation
  summary : List Char
  total_issues : Nat
deriving DecidableEq

/-- Python exception kinds the embedded code can raise. Pydantic's
`ValidationError` subclasses `ValueError`; it is kept distinct here and
treated as catchable wherever the source catches `ValueError`. -/
inductive PyErr where
  | typeError (msg : List Char)
  | valueError (msg : List Char)
  | validationError (msg : List Char)
  | keyError (msg : List Char)
  | http404 (msg : List Char)
deriving DecidableEq

/-- Decidable equality of computation results, to evaluate concrete runs. -/
instance exceptDecEq {ε α : Type} [DecidableEq ε] [DecidableEq α] :
    DecidableEq (Except ε α) := fun x y =>
  match x, y with
  | .ok a, .ok b =>
    if h : a = b then isTrue (congrArg Except.ok h)
    else isFalse (fun hc => h (Except.ok.inj hc))
  | .error a, .error b =>
    if h : a = b then isTrue (congrArg Except.error h)
    else isFalse (fun hc => h (Except.error.inj hc))
  | .ok _, .error _ => isFalse (fun hc => Except.noConfusion hc)
  | .error _, .ok _ => isFalse (fun hc => Except.noConfusion hc)

/-! ## JSON values and `json.loads`

The parser consumes JSON via Python's `json` module in two places
(`Location:` lines in legacy mode, and the whole document in structured
mode). The model below implements standard JSON parsing over `List Char`
with a fuel parameter; numbers are exact rationals. -/

/-- A parsed JSON value. -/
inductive Json where
  | null
  | bool (b : Bool)
  | num (q : ℚ)
  | str (s : List Char)
  | arr (elems : List Json)
  | obj (fields : List (List Char × Json))

/-- JSON insignificant whitespace. -/
def jsonSkipWs (cs : List Char) : List Char :=
  cs.dropWhile (fun c => c = ' ' || c = '\t' || c = '\n' || c = '\r')

/-- Lex a JSON string body (after the opening quote); returns the decoded
characters and the remainder after the closing quote. `\uXXXX` escapes are
not produced by the sources modelled here and are rejected. -/
def parseJsonStr : List Char → Option (List Char × List Char)
  | [] => none
  | '"' :: rest => some ([], rest)
  | '\\' :: e :: rest =>
    match parseJsonStr rest with
    | none => none
    | some (s, r) =>
      match e with
      | '"' => some ('"' :: s, r)
      | '\\' => some ('\\' :: s, r)
      | '/' => some ('/' :: s, r)
      | 'b' => some ('\x08' :: s, r)
      | 'f' => some ('\x0c' :: s, r)
      | 'n' => some ('\n' :: s, r)
      | 'r' => some ('\r' :: s, r)
      | 't' => some ('\t' :: s, r)
      | _ => none
  | c :: rest => (parseJsonStr rest).map (fun p => (c :: p.1, p.2))

/-- ASCII decimal digit test. -/
def isDigitCh (c : Char) : Bool := '0' ≤ c && c ≤ '9'

/-- Value of a non-empty digit string. -/
def digitsVal (ds : List Char) : Nat :=
  ds.foldl (fun a c => a * 10 + (c.toNat - 48)) 0

/-- Lex a JSON number into an exact rational. -/
def parseJsonNum (cs : List Char) : Option (Json × List Char) :=
  let (neg, cs1) := match cs with
    | '-' :: t => (true, t)
    | _ => (false, cs)
  let ip := cs1.takeWhile isDigitCh
  let r1 := cs1.dropWhile isDigitCh
  if ip.isEmpty then none
  else
    let fracStep : Option (List Char × List Char) := match r1 with
      | '.' :: t =>
        let fp := t.takeWhile isDigitCh
        if fp.isEmpty then none else some (fp, t.dropWhile isDigitCh)
      | _ => some ([], r1)
    match fracStep with
    | none => none
    | some (fp, r2) =>
      let expStep : Option (Bool × List Char × List Char) := match r2 with
        | 'e' :: t | 'E' :: t =>
          let (eneg, t1) := match t with
            | '-' :: u => (true, u)
            | '+' :: u => (false, u)
            | _ => (false, t)
          let ep := t1.takeWhile isDigitCh
          if ep.isEmpty then none else some (eneg, ep, t1.dropWhile isDigitCh)
        | _ => some (false, [], r2)
      match expStep with
      | none => none
      | some (eneg, ep, r3) =>
        -- The value is ip.fp × 10^(±e), assembled as one exact fraction.
        let mantNat : Nat := digitsVal ip * 10 ^ fp.length + digitsVal fp
        let mantNum : Int := if neg then -(mantNat : Int) else (mantNat : Int)
        let e := digitsVal ep
        let q : ℚ :=
          if eneg then mkRat mantNum (10 ^ fp.length * 10 ^ e)
          else mkRat (mantNum * ((10 ^ e : Nat) : Int)) (10 ^ fp.length)
        some (.num q, r3)

mutual

/-- Parse one JSON value, returning it with the unconsumed remainder. -/
def parseJsonVal : Nat → List Char → Option (Json × List Char)
  | 0, _ => none
  | fuel + 1, cs =>
    match jsonSkipWs cs with
    | '"' :: rest => (parseJsonStr rest).map (fun p => (.str p.1, p.2))
    | '{' :: rest =>
      match jsonSkipWs rest with
      | '}' :: r2 => some (.obj [], r2)
      | r2 => parseJsonMembers fuel r2 []
    | '[' :: rest =>
      match jsonSkipWs rest with
      | ']' :: r2 => some (.arr [], r2)
      | r2 => parseJsonElems fuel r2 []
    | 't' :: 'r' :: 'u' :: 'e' :: r => some (.bool true, r)
    | 'f' :: 'a' :: 'l' :: 's' :: 'e' :: r => some (.bool false, r)
    | 'n' :: 'u' :: 'l' :: 'l' :: r => some (.null, r)
    | r => parseJsonNum r

/-- Parse the members of a JSON object after the opening brace. -/
def parseJsonMembers : Nat → List Char → List (List Char × Json) →
    Option (Json × List Char)
  | 0, _, _ => none
  | fuel + 1, cs, acc =>
    match jsonSkipWs cs with
    | '"' :: rest =>
      match parseJsonStr rest with
      | none => none
      | some (k, r1) =>
        match jsonSkipWs r1 with
        | ':' :: r2 =>
          match parseJsonVal fuel r2 with
          | none => none
          | some (v, r3) =>
            match jsonSkipWs r3 with
            | ',' :: r4 => parseJsonMembers fuel r4 (acc ++ [(k, v)])
            | '}' :: r4 => some (.obj (acc ++ [(k, v)]), r4)
            | _ => none
        | _ => none
    | _ => none

/-- Parse the elements of a JSON array after the opening bracket. -/
def parseJsonElems : Nat → List Char → List Json → Option (Json × List Char)
  | 0, _, _ => none
  | fuel + 1, cs, acc =>
    match parseJsonVal fuel cs with
    | none => none
    | some (v, r1) =>
      match jsonSkipWs r1 with
      | ',' :: r2 => parseJsonElems fuel r2 (acc ++ [v])
      | ']' :: r2 => some (.arr (acc ++ [v]), r2)
      | _ => none

end

/-- Python `json.loads`: parse a complete document, allowing only trailing
whitespace. -/
def jsonLoads (cs : List Char) : Option Json :=
  match parseJsonVal (2 * cs.length + 16) cs with
  | some (v, rest) => if (jsonSkipWs rest).isEmpty then some v else none
  | none => none

/-- Field lookup in a parsed JSON object. -/
def objLookup (fields : List (List Char × Json)) (k : List Char) :
    Option Json :=
  match fields with
  | [] => none
  | (k', v) :: t => if k' = k then some v else objLookup t k

/-- Python `key in value` for a decoded JSON value: key lookup on dicts,
element equality on lists, substring on strings, `TypeError` otherwise. -/
def pyInStr (k : List Char) (j : Json) : Except PyErr Bool :=
  match j with
  | .obj fields => .ok (fields.any (fun p => p.1 = k))
  | .arr xs => .ok (xs.any (fun v => match v with | .str s => s = k | _ => false))
  | .str s => .ok (containsSub s k)
  | _ => .error (.typeError "argument is not iterable".data)

/-- Python `value[key]` for a decoded JSON value indexed by a string:
lookup on dicts (`KeyError` when absent), `TypeError` on anything else. -/
def pyIndexStr (j : Json) (k : List Char) : Except PyErr Json :=
  match j with
  | .obj fields =>
    match objLookup fields k with
    | some v => .ok v
    | none => .error (.keyError k)
  | _ => .error (.typeError "indices must be integers".data)

/-- Python `float(s)` on a string: optional sign, decimal digits with
optional fraction and exponent (the only forms the modelled inputs use);
anything else raises `ValueError`. -/
def pyFloatOfString (s : List Char) : Option ℚ :=
  let t := pyStrip s
  match parseJsonNum (match t with | '+' :: u => u | _ => t) with
  | some (.num q, rest) =>
    if rest.isEmpty then
      some (match t with | '+' :: _ => q | _ => q)
    else none
  | _ => none

/-- Python `float(v)` on a decoded JSON value: numbers and booleans
convert, strings parse (`ValueError` on failure), everything else raises
`TypeError`. -/
def pyFloat (j : Json) : Except PyErr ℚ :=
  match j with
  | .num q => .ok q
  | .bool b => .ok (if b then 1 else 0)
  | .str s =>
    match pyFloatOfString s with
    | some q => .ok q
    | none => .error (.valueError "could not convert string to float".data)
  | _ => .error (.typeError "float() argument".data)

/-! ## Legacy text parser (`api/services/video_analyzer.py`) -/

/-- Try the timestamp regex `(\d{1,2}:\d{2}(?::\d{2})?)` anchored at the
head of the list: two digits are preferred over one (greedy `\d{1,2}`),
then `:` and two digits, then a greedy optional `:` and two digits. -/
def tsMatchAt (cs : List Char) : Option (List Char) :=
  match cs with
  | d1 :: d2 :: ':' :: d3 :: d4 :: rest =>
    if isDigitCh d1 && isDigitCh d2 && isDigitCh d3 && isDigitCh d4 then
      match rest with
      | ':' :: d5 :: d6 :: _ =>
        if isDigitCh d5 && isDigitCh d6 then
          some [d1, d2, ':', d3, d4, ':', d5, d6]
        else some [d1, d2, ':', d3, d4]
      | _ => some [d1, d2, ':', d3, d4]
    else tsMatchAt1 cs
  | _ => tsMatchAt1 cs
where
  /-- The one-digit alternative of `\d{1,2}` at the same start. -/
  tsMatchAt1 : List Char → Option (List Char)
  | d1 :: ':' :: d2 :: d3 :: rest =>
    if isDigitCh d1 && isDigitCh d2 && isDigitCh d3 then
      match rest with
      | ':' :: d4 :: d5 :: _ =>
        if isDigitCh d4 && isDigitCh d5 then
          some [d1, ':', d2, d3, ':', d4, d5]
        else some [d1, ':', d2, d3]
      | _ => some [d1, ':', d2, d3]
    else none
  | _ => none

/-- Python `re.search(timestamp_pattern, line)`: the leftmost match of the
timestamp pattern, scanning start positions left to right. -/
def searchTs : List Char → Option (List Char)
  | [] => none
  | c :: t =>
    match tsMatchAt (c :: t) with
    | some g => some g
    | none => searchTs t

/-- The `Severity:` elif-chain of `_parse_issues` (lines 160-170): checks
the lowered text for each severity name in the source's order; no match
leaves the field unset. -/
def parseSeverityText (severity_text : List Char) : Option Severity :=
  if containsSub severity_text "critical".data then some .CRITICAL
  else if containsSub severity_text "high".data then some .HIGH
  else if containsSub severity_text "medium".data then some .MEDIUM
  else if containsSub severity_text "low".data then some .LOW
  else none

/-- The `Category:` loop of `_parse_issues` (lines 173-178): first
`IssueCategory` in declaration order whose value occurs in the normalized
text. -/
def parseCategoryText (category_text : List Char) : Option IssueCategory :=
  categoryAll.find? (fun cat => containsSub category_text cat.value)

/-- The mutable `current_issue` dict accumulated per block. -/
structure IssueDict where
  start_timestamp : Option (List Char) := none
  end_timestamp : Option (List Char) := none
  severity : Option Severity := none
  category : Option IssueCategory := none
  description : Option (List Char) := none
  context : Option (List Char) := none
  location : Option Location := none
deriving DecidableEq

/-- The `Location:` branch of `_parse_issues` (lines 189-200): parse the
rest of the line as JSON; `json.JSONDecodeError`, `ValueError` (including
pydantic's `ValidationError`) and `KeyError` are caught and leave the dict
unchanged, while a `TypeError` (e.g. `float` of a list) propagates. -/
def processLocationLine (d : IssueDict) (line : List Char) :
    Except PyErr IssueDict :=
  let location_text := pyStrip (afterFirstColon line)
  match jsonLoads location_text with
  | none => .ok d
  | some data =>
    match pyInStr "x".data data with
    | .error e => .error e
    | .ok false => .ok d
    | .ok true =>
      match pyInStr "y".data data with
      | .error e => .error e
      | .ok false => .ok d
      | .ok true =>
        let chain : Except PyErr Location := do
          let jx ← pyIndexStr data "x".data
          let qx ← pyFloat jx
          let jy ← pyIndexStr data "y".data
          let qy ← pyFloat jy
          match mkLocation qx qy with
          | some loc => .ok loc
          | none => .error (.validationError "coordinate out of range".data)
        match chain with
        | .ok loc => .ok { d with location := some loc }
        | .error (.typeError m) => .error (.typeError m)
        | .error _ => .ok d

/-- One iteration of the per-line loop of `_parse_issues` (lines 137-200). -/
def processLine (d : IssueDict) (line0 : List Char) : Except PyErr IssueDict :=
  let line := pyStrip line0
  if line.isEmpty then .ok d
  else if "start:".data.isPrefixOf (pyLower line) then
    match searchTs line with
    | some g => .ok { d with start_timestamp := some g }
    | none =>
      if containsSub (pyLower line) "n/a".data then
        .ok { d with start_timestamp := some "N/A".data }
      else .ok d
  else if "end:".data.isPrefixOf (pyLower line) then
    match searchTs line with
    | some g => .ok { d with end_timestamp := some g }
    | none =>
      if containsSub (pyLower line) "n/a".data then
        .ok { d with end_timestamp := some "N/A".data }
      else .ok d
  else if "severity:".data.isPrefixOf (pyLower line) then
    let severity_text := pyLower (pyStrip (afterFirstColon line))
    match parseSeverityText severity_text with
    | some s => .ok { d with severity := some s }
    | none => .ok d
  else if "category:".data.isPrefixOf (pyLower line) then
    let category_text :=
      (pyLower (pyStrip (afterFirstColon line))).map
        (fun c => if c = ' ' then '_' else c)
    match parseCategoryText category_text with
    | some cat => .ok { d with category := some cat }
    | none => .ok d
  else if "description:".data.isPrefixOf (pyLower line) then
    .ok { d with description := some (pyStrip (afterFirstColon line)) }
  else if "context:".data.isPrefixOf (pyLower line) then
    .ok { d with context := some (pyStrip (afterFirstColon line)) }
  else if "location:".data.isPrefixOf (pyLower line) then
    processLocationLine d line
  else .ok d

/-- Source `_create_issue_from_dict` (lines 211-251): fill defaults, default a
missing/falsy end timestamp to the start, replace a too-short description
with the synthesized placeholder, then construct the pydantic `Issue`
(`none` on validation failure, mirroring the `except` branch). -/
def createIssueFromDict (d : IssueDict) : Option Issue :=
  let start_ts := d.start_timestamp.getD "00:00".data
  let end_ts := match d.end_timestamp with
    | some e => if e.isEmpty then start_ts else e
    | none => start_ts
  let sev := d.severity.getD .MEDIUM
  let cat := d.category.getD .OTHER
  let desc0 := d.description.getD "Issue identified - details in context".data
  let desc :=
    if desc0.length < 10 then "Potential issue identified at ".data ++ start_ts
    else desc0
  mkIssue start_ts end_ts sev cat desc d.context d.location

/-- Run the line loop of `_parse_issues` over a block's lines. -/
def parseBlockDict (block : List Char) : Except PyErr IssueDict :=
  (splitChar '\n' (pyStrip block)).foldlM processLine {}

/-- The per-block body of `_parse_issues` (lines 130-206): skip blank or
example blocks, accumulate the dict, and keep the block only when a start
timestamp was parsed. -/
def parseBlockIssue (block : List Char) : Except PyErr (Option Issue) :=
  if (pyStrip block).isEmpty || containsSub block "Example:".data then .ok none
  else do
    let d ← parseBlockDict block
    -- `if current_issue and "start_timestamp" in current_issue`: a set
    -- start timestamp already makes the dict non-empty.
    if d.start_timestamp.isSome then .ok (createIssueFromDict d)
    else .ok none

/-- Source `VideoAnalyzer._parse_issues` (lines 104-209): sentinel short-circuit,
split on `"ISSUE:"`, parse each block, collect the issues that survive. -/
def parseIssues (raw_analysis : List Char) : Except PyErr (List Issue) :=
  if containsSub raw_analysis "NO ISSUES FOUND".data then .ok []
  else
    (splitStr "ISSUE:".data raw_analysis).foldlM
      (fun issues block => do
        match ← parseBlockIssue block with
        | some issue => pure (issues ++ [issue])
        | none => pure issues)
      []

/-! ## Summary generator (`_generate_summary`) -/

/-- Python `severity_counts[s] = severity_counts.get(s, 0) + 1` on an
insertion-ordered dict represented as an association list: bump an
existing key in place, append a new key at the end. -/
def bumpCount (acc : List (Severity × Nat)) (s : Severity) :
    List (Severity × Nat) :=
  match acc with
  | [] => [(s, 1)]
  | (k, c) :: t => if k = s then (k, c + 1) :: t else (k, c) :: bumpCount t s

/-- The severity-count dict of `_generate_summary` (lines 268-270). -/
def severityCounts (issues : List Issue) : List (Severity × Nat) :=
  issues.foldl (fun acc i => bumpCount acc i.severity) []

/-- Insert one entry into a list sorted by descending severity index. -/
def insertDesc (p : Severity × Nat) : List (Severity × Nat) →
    List (Severity × Nat)
  | [] => [p]
  | q :: t =>
    if sevIndex p.1 ≤ sevIndex q.1 then q :: insertDesc p t else p :: q :: t

/-- Python `sorted(severity_counts.items(), key=index, reverse=True)` (the keys
are distinct, so any correct descending sort gives Python's answer). -/
def sortCountsDesc (l : List (Severity × Nat)) : List (Severity × Nat) :=
  l.foldr insertDesc []

/-- Source `VideoAnalyzer._generate_summary` (lines 253-288). -/
def generateSummary (issues : List Issue) (_raw_analysis : List Char) :
    List Char :=
  if issues.isEmpty then
    "No significant medical accuracy issues identified in this video.".data
  else
    let severity_counts := severityCounts issues
    let part1 :=
      "Analysis identified ".data ++ natDec issues.length ++
        " potential issue".data ++
        (if issues.length ≠ 1 then "s".data else [])
    let part2 :=
      if severity_counts.isEmpty then []
      else
        let severity_summary :=
          joinSep ", ".data
            ((sortCountsDesc severity_counts).map
              (fun p => natDec p.2 ++ " ".data ++ p.1.value))
        " (".data ++ severity_summary ++ ")".data
    part1 ++ part2 ++ " requiring review.".data

/-- Source `AnalyzerService._generate_summary` (`analyzer_service.py` lines
155-192): identical except for the empty-case sentence. -/
def generateSummaryService (issues : List Issue) (_raw_analysis : List Char) :
    List Char :=
  if issues.isEmpty then
    "No significant medical accuracy issues identified in this content.".data
  else
    let severity_counts := severityCounts issues
    let part1 :=
      "Analysis identified ".data ++ natDec issues.length ++
        " potential issue".data ++
        (if issues.length ≠ 1 then "s".data else [])
    let part2 :=
      if severity_counts.isEmpty then []
      else
        let severity_summary :=
          joinSep ", ".data
            ((sortCountsDesc severity_counts).map
              (fun p => natDec p.2 ++ " ".data ++ p.1.value))
        " (".data ++ severity_summary ++ ")".data
    part1 ++ part2 ++ " requiring review.".data

/-! ## Video-id extraction (`gemini_client.py` lines 397-425) -/

/-- Source `GeminiClient.extract_video_id`: YouTube `watch?v=` query parameter,
`youtu.be` short-link path segment, else the URL unchanged (with a logged
warning). -/
def extractVideoId (video_url : List Char) : List Char :=
  if containsSub video_url "youtube.com/watch?v=".data then
    (splitChar '&' ((splitStr "watch?v=".data video_url).getD 1 [])).headD []
  else if containsSub video_url "youtu.be/".data then
    (splitChar '?' ((splitStr "youtu.be/".data video_url).getD 1 [])).headD []
  else video_url

/-! ## Orchestrators -/

/-- Python truthiness of an optional string/bytes argument: `None` and the
empty value are falsy. -/
def pyTruthy {α : Type} (o : Option (List α)) : Bool :=
  match o with
  | none => false
  | some l => !l.isEmpty

/-- Python `sum([bool(video_url), bool(image_url), bool(image_data)])`. -/
def inputCount (video_url image_url : Option (List Char))
    (image_data : Option (List Nat)) : Nat :=
  (if pyTruthy video_url then 1 else 0) +
    (if pyTruthy image_url then 1 else 0) +
    (if pyTruthy image_data then 1 else 0)

/-- Content id for an image URL (`video_analyzer.py` line 77):
`image_url.split("/")[-1].split("?")[0] if "/" in image_url else image_url`. -/
def imageContentId (image_url : List Char) : List Char :=
  if containsSub image_url "/".data then
    (splitChar '?' ((splitChar '/' image_url).getLastD [])).headD []
  else image_url

/-- Source `VideoAnalyzer.analyze` (lines 38-102). The remote model's reply is
the injected `raw_analysis` (the Gemini call is an opaque external
collaborator), and `now` stands for the wall-clock read. -/
def videoAnalyzerAnalyze (video_url image_url : Option (List Char))
    (image_data : Option (List Nat)) (raw_analysis : List Char) (now : Nat) :
    Except PyErr AnalyzeResponse :=
  let inputs := inputCount video_url image_url image_data
  if inputs = 0 then
    .error (.valueError
      "Either video_url, image_url, or image_data must be provided".data)
  else if 1 < inputs then
    .error (.valueError
      "Cannot analyze multiple inputs in the same request. Please provide only one.".data)
  else
    let (content_id, content_url) :=
      if pyTruthy video_url then
        let v := video_url.getD []
        (extractVideoId v, v)
      else if pyTruthy image_url then
        let u := image_url.getD []
        (imageContentId u, u)
      else ("uploaded_image".data, "uploaded_image".data)
    do
      let issues ← parseIssues raw_analysis
      let summary := generateSummary issues raw_analysis
      .ok {
        video_id := content_id
        video_url := content_url
        analysis_timestamp := now
        issues := issues
        summary := summary
        total_issues := issues.length
      }

/-! ## Structured mode (`analyzer_service.py`) -/

/-- The structured response aggregate: an `issues` array plus an optional
`summary`. -/
structure AnalysisResponseSchema where
  issues : List Issue
  summary : Option (List Char)
deriving DecidableEq

/-- Read a required string field of a JSON object. -/
def requiredStrField (fields : List (List Char × Json)) (k : List Char) :
    Except PyErr (List Char) :=
  match objLookup fields k with
  | some (.str s) => .ok s
  | _ => .error (.validationError k)

/-- Read an optional string field of a JSON object (absent or `null` maps
to `none`). -/
def optionalStrField (fields : List (List Char × Json)) (k : List Char) :
    Except PyErr (Option (List Char)) :=
  match objLookup fields k with
  | none => .ok none
  | some .null => .ok none
  | some (.str s) => .ok (some s)
  | some _ => .error (.validationError k)

/-- Modelled from the spec: `AnalysisResponseSchema` is imported from
`api.models.schemas` in `analyzer_service.py` but is not defined anywhere
under the source tree; per the spec's structured mode, the document has an
`issues` array whose elements field-map 1:1 onto `Issue` (same enumeration
values and constraints) and an optional `summary`. This validates one
element of the `issues` array. -/
def validateIssueJson (j : Json) : Except PyErr Issue :=
  match j with
  | .obj fields => do
    let st ← requiredStrField fields "start_timestamp".data
    let en ← requiredStrField fields "end_timestamp".data
    let sevs ← requiredStrField fields "severity".data
    let sev ← match severityAll.find? (fun s => s.value = sevs) with
      | some s => .ok s
      | none => .error (.validationError "severity".data)
    let cats ← requiredStrField fields "category".data
    let cat ← match categoryAll.find? (fun c => c.value = cats) with
      | some c => .ok c
      | none => .error (.validationError "category".data)
    let desc ← requiredStrField fields "description".data
    let ctx ← optionalStrField fields "context".data
    let loc ← match objLookup fields "location".data with
      | none => .ok none
      | some .null => .ok none
      | some (.obj lf) => do
        let jx ← match objLookup lf "x".data with
          | some (.num q) => .ok q
          | _ => .error (.validationError "location.x".data)
        let jy ← match objLookup lf "y".data with
          | some (.num q) => .ok q
          | _ => .error (.validationError "location.y".data)
        match mkLocation jx jy with
        | some l => .ok (some l)
        | none => .error (.validationError "location out of range".data)
      | some _ => .error (.validationError "location".data)
    match mkIssue st en sev cat desc ctx loc with
    | some issue => .ok issue
    | none => .error (.validationError "description too short".data)
  | _ => .error (.validationError "issue element".data)

/-- Modelled from the spec:
`AnalysisResponseSchema.model_validate_json(raw)` — parse the raw text as
JSON and validate it against the structured schema; any failure is a
terminal `ValidationError`. -/
def modelValidateJson (raw : List Char) :
    Except PyErr AnalysisResponseSchema :=
  match jsonLoads raw with
  | none => .error (.validationError "invalid JSON".data)
  | some (.obj fields) => do
    let issues ← match objLookup fields "issues".data with
      | some (.arr xs) => xs.mapM validateIssueJson
      | _ => .error (.validationError "issues".data)
    let summary ← optionalStrField fields "summary".data
    .ok { issues := issues, summary := summary }
  | some _ => .error (.validationError "not an object".data)

/-- Source `AnalyzerService.analyze` (`analyzer_service.py` lines 52-153): same
input validation as `VideoAnalyzer.analyze`, then structured-mode parsing
of the injected raw model reply; an explicit truthy `summary` from the
model is preferred verbatim over the generated one. (The mime-type
computation of the video branch only feeds the external call and is not
modelled; `extract_video_id` is the client's, embedded above.) -/
def analyzerServiceAnalyze (video_url image_url : Option (List Char))
    (image_data : Option (List Nat)) (raw_analysis : List Char) (now : Nat) :
    Except PyErr AnalyzeResponse :=
  let inputs := inputCount video_url image_url image_data
  if inputs = 0 then
    .error (.valueError
      "Either video_url, image_url, or image_data must be provided".data)
  else if 1 < inputs then
    .error (.valueError
      "Cannot analyze multiple inputs in the same request. Please provide only one.".data)
  else
    let (content_id, content_url) :=
      if pyTruthy video_url then
        let v := video_url.getD []
        (extractVideoId v, v)
      else if pyTruthy image_url then
        let u := image_url.getD []
        (imageContentId u, u)
      else ("uploaded_image".data, "uploaded_image".data)
    do
      let structured_data ← modelValidateJson raw_analysis
      let issues := structured_data.issues
      let summary :=
        match structured_data.summary with
        | some s =>
          if s.isEmpty then generateSummaryService issues raw_analysis else s
        | none => generateSummaryService issues raw_analysis
      .ok {
        video_id := content_id
        video_url := content_url
        analysis_timestamp := now
        issues := issues
        summary := summary
        total_issues := issues.length
      }

/-! ## Two-step locate protocol (`api/routes/analysis.py`) -/

/-- The process-wide `uploaded_images` dict: insertion-ordered association
list with dict update semantics. -/
def storePut (store : List (List Char × List Nat)) (k : List Char)
    (v : List Nat) : List (List Char × List Nat) :=
  match store with
  | [] => [(k, v)]
  | (k', v') :: t =>
    if k' = k then (k', v) :: t else (k', v') :: storePut t k v

/-- Python `uploaded_images.get(key)`. -/
def storeGet (store : List (List Char × List Nat)) (k : List Char) :
    Option (List Nat) :=
  match store with
  | [] => none
  | (k', v) :: t => if k' = k then some v else storeGet t k

/-- Phase-1 composite issue id `f"{image_id}_{idx}"` (line 275). -/
def issueIdOf (image_id : List Char) (idx : Nat) : List Char :=
  image_id ++ '_' :: natDec idx

/-- Phase-2 upload-id recovery (line 341):
`"_".join(issue_id.split("_")[:-1])`. -/
def recoverImageId (issue_id : List Char) : List Char :=
  joinChar '_' ((splitChar '_' issue_id).dropLast)

/-- Source `analyze_initial` (lines 219-299), after the file-type guard: store
the bytes under the fresh `image_id`, parse the injected raw reply in
legacy mode, assign composite ids in order, and assemble the response.
Returns the response together with the updated store. -/
def analyzeInitial (image_id : List Char) (file_content : List Nat)
    (raw_analysis : List Char) (now : Nat)
    (store : List (List Char × List Nat)) :
    Except PyErr (AnalyzeInitialResponse × List (List Char × List Nat)) :=
  let store' := storePut store image_id file_content
  do
    let issues_with_loc ← parseIssues raw_analysis
    let issues := issues_with_loc.enum.map (fun p =>
      { issue_id := issueIdOf image_id p.1
        start_timestamp := p.2.start_timestamp
        end_timestamp := p.2.end_timestamp
        severity := p.2.severity
        category := p.2.category
        description := p.2.description
        context := p.2.context : IssueWithoutLocation })
    let summary := generateSummary issues_with_loc raw_analysis
    .ok ({
      video_id := image_id
      video_url := "uploaded_image_".data ++ image_id
      analysis_timestamp := now
      issues := issues
      summary := summary
      total_issues := issues.length
    }, store')

/-- The image-source resolution step of `get_issue_location` (lines
340-356): recover the upload id, look the bytes up (Python truthiness:
empty bytes count as absent), fall back to a caller-supplied URL, else
fail with the 404. -/
def phase2Resolve (store : List (List Char × List Nat))
    (issue_id : List Char) (image_url : Option (List Char)) :
    Except PyErr (List Nat ⊕ List Char) :=
  let image_id := recoverImageId issue_id
  let fallback : Except PyErr (List Nat ⊕ List Char) :=
    match image_url with
    | none => .error (.http404 ("Image not found. Image ID: ".data ++ image_id))
    | some u => .ok (.inr u)
  match storeGet store image_id with
  | some data => if data.isEmpty then fallback else .ok (.inl data)
  | none => fallback

/-! ## General facts about the enumerations -/

/-- Every severity is one of the four declared enumeration members. -/
theorem severity_mem_all (s : Severity) : s ∈ severityAll := by
  cases s <;> simp [severityAll]

/-- Every category is one of the fourteen declared enumeration members. -/
theorem category_mem_all (c : IssueCategory) : c ∈ categoryAll := by
  cases c <;> simp [categoryAll]

/-! ## Claim C2 -/

/-- C2: for every legacy-mode input text containing the literal substring
"NO ISSUES FOUND" anywhere, `_parse_issues` returns the empty issue
sequence, regardless of whatever other content surrounds the sentinel. -/
theorem c2_no_issues_sentinel (raw : List Char)
    (h : containsSub raw "NO ISSUES FOUND".data = true) :
    parseIssues raw = .ok [] := by
  simp [parseIssues, h]

/-- Witness for C2 at a text whose sentinel is surrounded by two
well-formed ISSUE blocks. -/
theorem c2_no_issues_sentinel_witness :
    parseIssues ("Preamble ISSUE:\nStart: 00:10\nDescription: a well formed block\n" ++
      "NO ISSUES FOUND\nISSUE:\nStart: 00:20\nDescription: another well formed one\n").data
      = .ok [] :=
  c2_no_issues_sentinel _ (by decide)

/-! ## Claim C9 -/

/-- C9: evaluation of `extract_video_id` on the three reference inputs.
The two YouTube forms map to the video id, but the GCS URL
`gs://bucket/video.mp4` is returned unchanged — the function has no
`gs://` branch, contradicting the repository's own
`test_extract_video_id_gcs`, which expects the object basename
`video.mp4`. -/
theorem c9_extract_video_id_eval :
    extractVideoId "https://www.youtube.com/watch?v=dQw4w9WgXcQ".data
        = "dQw4w9WgXcQ".data ∧
    extractVideoId "https://youtu.be/dQw4w9WgXcQ?si=x".data = "dQw4w9WgXcQ".data ∧
    extractVideoId "gs://bucket/video.mp4".data = "gs://bucket/video.mp4".data :=
  ⟨by decide, by decide, by decide⟩

/-! ## Claim C5 -/

/-- A legacy block whose `Location:` line holds malformed JSON (unquoted
key). -/
def c5MalformedLocationText : List Char :=
  ("ISSUE:\nStart: N/A for image\nSeverity: low\nCategory: visual_quality\n" ++
   "Description: Something long enough here.\nLocation: \x7bx: 0.5\x7d\n").data

/-- A legacy block whose `Location:` line has an out-of-range x
coordinate. -/
def c5OutOfRangeLocationText : List Char :=
  ("ISSUE:\nStart: N/A for image\nSeverity: low\nCategory: visual_quality\n" ++
   "Description: Something long enough here.\nLocation: \x7b\"x\": 1.5, \"y\": 0.5\x7d\n").data

/-- C5: `Location` construction fails for any coordinate outside [0, 1]
and never clamps, so every constructed `Location` satisfies the bounds;
and in legacy parsing a malformed or out-of-range `Location:` line only
omits the location field — the issue itself (and the batch) survives. -/
theorem c5_location_bounds :
    (∀ x y loc, mkLocation x y = some loc →
      loc.x = x ∧ loc.y = y ∧ 0 ≤ loc.x ∧ loc.x ≤ 1 ∧ 0 ≤ loc.y ∧ loc.y ≤ 1) ∧
    (∀ x y, ¬(0 ≤ x ∧ x ≤ 1 ∧ 0 ≤ y ∧ y ≤ 1) → mkLocation x y = none) ∧
    (parseIssues c5MalformedLocationText).map
        (List.map (fun i => (i.description, i.location)))
      = .ok [("Something long enough here.".data, none)] ∧
    (parseIssues c5OutOfRangeLocationText).map
        (List.map (fun i => (i.description, i.location)))
      = .ok [("Something long enough here.".data, none)] := by
  refine ⟨?_, ?_, by decide, by decide⟩
  · intro x y loc h
    unfold mkLocation at h
    split_ifs at h with hc
    obtain rfl : Location.mk x y = loc := Option.some.inj h
    exact ⟨rfl, rfl, hc.1, hc.2.1, hc.2.2.1, hc.2.2.2⟩
  · intro x y h
    unfold mkLocation
    rw [if_neg h]

/-- Witness for C5: the general parts applied at concrete coordinates. -/
theorem c5_location_bounds_witness :
    (Location.mk (mkRat 1 4) (mkRat 3 4)).x = mkRat 1 4 ∧
      mkLocation (mkRat 3 2) (mkRat 1 2) = none :=
  ⟨(c5_location_bounds.1 (mkRat 1 4) (mkRat 3 4) ⟨mkRat 1 4, mkRat 3 4⟩
      (by decide)).1,
   c5_location_bounds.2.1 (mkRat 3 2) (mkRat 1 2) (by decide)⟩

/-! ## Claim C8 -/

/-- C8: both orchestrators accept exactly one input: with zero (truthy)
inputs they raise the `ValueError` whose message contains "must be
provided", with more than one the `ValueError` whose message contains
"multiple inputs"; the two messages are distinct from each other. -/
theorem c8_input_validation (video_url image_url : Option (List Char))
    (image_data : Option (List Nat)) (raw : List Char) (now : Nat) :
    (inputCount video_url image_url image_data = 0 →
      videoAnalyzerAnalyze video_url image_url image_data raw now =
        .error (.valueError
          "Either video_url, image_url, or image_data must be provided".data) ∧
      analyzerServiceAnalyze video_url image_url image_data raw now =
        .error (.valueError
          "Either video_url, image_url, or image_data must be provided".data)) ∧
    (1 < inputCount video_url image_url image_data →
      videoAnalyzerAnalyze video_url image_url image_data raw now =
        .error (.valueError
          "Cannot analyze multiple inputs in the same request. Please provide only one.".data) ∧
      analyzerServiceAnalyze video_url image_url image_data raw now =
        .error (.valueError
          "Cannot analyze multiple inputs in the same request. Please provide only one.".data)) ∧
    containsSub
      "Either video_url, image_url, or image_data must be provided".data
      "must be provided".data = true ∧
    containsSub
      "Cannot analyze multiple inputs in the same request. Please provide only one.".data
      "multiple inputs".data = true ∧
    "Either video_url, image_url, or image_data must be provided".data ≠
      "Cannot analyze multiple inputs in the same request. Please provide only one.".data := by
  refine ⟨?_, ?_, by decide, by decide, by decide⟩
  · intro h
    constructor
    · simp [videoAnalyzerAnalyze, h]
    · simp [analyzerServiceAnalyze, h]
  · intro h
    have h0 : ¬ inputCount video_url image_url image_data = 0 := by omega
    constructor
    · simp [videoAnalyzerAnalyze, h0, h]
    · simp [analyzerServiceAnalyze, h0, h]

/-- Witness for C8: a zero-input call and a two-input call. -/
theorem c8_input_validation_witness :
    videoAnalyzerAnalyze none none none [] 0 =
      .error (.valueError
        "Either video_url, image_url, or image_data must be provided".data) ∧
    analyzerServiceAnalyze (some "a".data) (some "b".data) none [] 0 =
      .error (.valueError
        "Cannot analyze multiple inputs in the same request. Please provide only one.".data) :=
  ⟨((c8_input_validation none none none [] 0).1 (by decide)).1,
   ((c8_input_validation (some "a".data) (some "b".data) none [] 0).2.1 (by decide)).2⟩

/-! ## Characterization of issue creation -/

/-- Issue creation from a parsed dict always succeeds, and each field of
the result is the source's default-or-parsed value; in particular the
final description always meets the length constraint. -/
theorem createIssueFromDict_spec (d : IssueDict) :
    ∃ issue, createIssueFromDict d = some issue ∧
      issue.start_timestamp = d.start_timestamp.getD "00:00".data ∧
      issue.end_timestamp = (match d.end_timestamp with
        | some e => if e.isEmpty then d.start_timestamp.getD "00:00".data else e
        | none => d.start_timestamp.getD "00:00".data) ∧
      issue.severity = d.severity.getD .MEDIUM ∧
      issue.category = d.category.getD .OTHER ∧
      issue.description =
        (if (d.description.getD "Issue identified - details in context".data).length < 10 then
          "Potential issue identified at ".data ++ d.start_timestamp.getD "00:00".data
        else d.description.getD "Issue identified - details in context".data) ∧
      issue.context = d.context ∧
      issue.location = d.location := by
  simp only [createIssueFromDict, mkIssue]
  by_cases hd :
      (d.description.getD "Issue identified - details in context".data).length < 10
  · rw [if_pos hd]
    have h10 : 10 ≤ ("Potential issue identified at ".data ++
        d.start_timestamp.getD "00:00".data).length := by
      rw [List.length_append]
      have : ("Potential issue identified at ".data).length = 30 := by decide
      omega
    rw [if_pos h10]
    exact ⟨_, rfl, rfl, rfl, rfl, rfl, rfl, rfl, rfl⟩
  · rw [if_neg hd]
    have h10 : 10 ≤
        (d.description.getD "Issue identified - details in context".data).length := by
      omega
    rw [if_pos h10]
    exact ⟨_, rfl, rfl, rfl, rfl, rfl, rfl, rfl, rfl⟩

/-! ## Claim C3 -/

/-- A legacy block whose severity and category text matches no
enumeration value. -/
def c3DefaultBlock : List Char :=
  ("ISSUE:\nStart: 00:10\nSeverity: banana\nCategory: banana\n" ++
   "Description: long enough text here").data

/-- A legacy block whose severity text contains two severity names and
whose category text contains a category name plus the text of a later
one. -/
def c3FirstMatchBlock : List Char :=
  ("ISSUE:\nStart: 00:10\nSeverity: critically high\n" ++
   "Category: medical_accuracy and other concerns\n" ++
   "Description: long enough text here").data

/-- C3: every parsed issue's severity and category belong to the
enumerations; an unset severity defaults to medium and an unset category
to other; on the no-match block both defaults appear, and on the
several-matches block the first match (in the source's check order) wins. -/
theorem c3_enum_totality_and_defaults :
    (∀ raw issues, parseIssues raw = .ok issues →
      ∀ issue ∈ issues,
        issue.severity ∈ severityAll ∧ issue.category ∈ categoryAll) ∧
    (∀ d : IssueDict, d.severity = none →
      (createIssueFromDict d).map Issue.severity = some Severity.MEDIUM) ∧
    (∀ d : IssueDict, d.category = none →
      (createIssueFromDict d).map Issue.category = some IssueCategory.OTHER) ∧
    (parseIssues c3DefaultBlock).map (List.map (fun i => (i.severity, i.category)))
      = .ok [(Severity.MEDIUM, IssueCategory.OTHER)] ∧
    (parseIssues c3FirstMatchBlock).map (List.map (fun i => (i.severity, i.category)))
      = .ok [(Severity.CRITICAL, IssueCategory.MEDICAL_ACCURACY)] := by
  refine ⟨?_, ?_, ?_, by decide, by decide⟩
  · intro raw issues _ issue _
    exact ⟨severity_mem_all _, category_mem_all _⟩
  · intro d h
    obtain ⟨issue, heq, -, -, hsev, -⟩ := createIssueFromDict_spec d
    rw [heq]
    show some issue.severity = some Severity.MEDIUM
    rw [hsev, h]
    rfl
  · intro d h
    obtain ⟨issue, heq, -, -, -, hcat, -⟩ := createIssueFromDict_spec d
    rw [heq]
    show some issue.category = some IssueCategory.OTHER
    rw [hcat, h]
    rfl

/-- Witness for C3: the general parts applied at the no-match block's
parse result and at a concrete dict with unset severity and category. -/
theorem c3_enum_totality_and_defaults_witness :
    ((Issue.mk "00:10".data "00:10".data .MEDIUM .OTHER
        "long enough text here".data none none).severity ∈ severityAll ∧
      (Issue.mk "00:10".data "00:10".data .MEDIUM .OTHER
        "long enough text here".data none none).category ∈ categoryAll) ∧
    (createIssueFromDict
        ⟨some "00:10".data, none, none, none, none, none, none⟩).map Issue.severity
      = some Severity.MEDIUM ∧
    (createIssueFromDict
        ⟨some "00:10".data, none, none, none, none, none, none⟩).map Issue.category
      = some IssueCategory.OTHER :=
  ⟨c3_enum_totality_and_defaults.1 c3DefaultBlock
      [Issue.mk "00:10".data "00:10".data .MEDIUM .OTHER
        "long enough text here".data none none] (by decide)
      (Issue.mk "00:10".data "00:10".data .MEDIUM .OTHER
        "long enough text here".data none none) (by decide),
   c3_enum_totality_and_defaults.2.1
     ⟨some "00:10".data, none, none, none, none, none, none⟩ rfl,
   c3_enum_totality_and_defaults.2.2.1
     ⟨some "00:10".data, none, none, none, none, none, none⟩ rfl⟩

/-! ## Claim C4 -/

/-- A two-block legacy text whose first block has no `Start:` line. -/
def c4TwoBlockText : List Char :=
  ("ISSUE:\nSeverity: high\nDescription: First block lacks a start line entirely\n\n" ++
   "ISSUE:\nStart: 00:10\nEnd: 00:15\nSeverity: high\nCategory: medical_accuracy\n" ++
   "Description: Incorrect dosage mentioned here.\n").data

/-- C4: a block whose accumulated dict has no start timestamp yields no
issue; a dict with a start but no end gives `end = start`; a parsed
description shorter than 10 characters is replaced by the placeholder
embedding the start timestamp; and the two-block scenario yields exactly
the second block's issue. -/
theorem c4_block_field_policies :
    (∀ block d, parseBlockDict block = .ok d → d.start_timestamp = none →
      parseBlockIssue block = .ok none) ∧
    (∀ (d : IssueDict) s, d.start_timestamp = some s → d.end_timestamp = none →
      (createIssueFromDict d).map (fun i => (i.start_timestamp, i.end_timestamp))
        = some (s, s)) ∧
    (∀ (d : IssueDict) s desc, d.start_timestamp = some s →
      d.description = some desc → desc.length < 10 →
      (createIssueFromDict d).map Issue.description
        = some ("Potential issue identified at ".data ++ s)) ∧
    (parseIssues c4TwoBlockText).map
        (List.map (fun i => (i.start_timestamp, i.end_timestamp, i.description)))
      = .ok [("00:10".data, "00:15".data, "Incorrect dosage mentioned here.".data)] := by
  refine ⟨?_, ?_, ?_, by decide⟩
  · intro block d hd hstart
    unfold parseBlockIssue
    split_ifs with hskip
    · rfl
    · simp only [bind, Except.bind, hd, hstart, Option.isSome_none, Bool.false_eq_true,
        if_false, reduceIte]
  · intro d s hs he
    obtain ⟨issue, heq, hst, hen, -⟩ := createIssueFromDict_spec d
    rw [heq]
    show some (issue.start_timestamp, issue.end_timestamp) = some (s, s)
    rw [hs] at hst hen
    rw [he] at hen
    simp only [Option.getD_some] at hst hen
    rw [hst, hen]
  · intro d s desc hs hdesc hlen
    obtain ⟨issue, heq, -, -, -, -, hdd, -⟩ := createIssueFromDict_spec d
    rw [heq]
    show some issue.description = some ("Potential issue identified at ".data ++ s)
    rw [hdesc, hs] at hdd
    simp only [Option.getD_some] at hdd
    rw [if_pos hlen] at hdd
    rw [hdd]

/-- Witness for C4: the general parts applied at a concrete start-less
block and at concrete dicts. -/
theorem c4_block_field_policies_witness :
    parseBlockIssue "\nSeverity: high\nDescription: no start timestamp here\n".data
      = .ok none ∧
    (createIssueFromDict
        ⟨some "00:10".data, none, none, none, some "long enough text here".data,
          none, none⟩).map (fun i => (i.start_timestamp, i.end_timestamp))
      = some ("00:10".data, "00:10".data) ∧
    (createIssueFromDict
        ⟨some "00:10".data, none, none, none, some "short".data, none,
          none⟩).map Issue.description
      = some ("Potential issue identified at 00:10".data) :=
  ⟨c4_block_field_policies.1 "\nSeverity: high\nDescription: no start timestamp here\n".data
      ⟨none, none, some .HIGH, none, some "no start timestamp here".data, none, none⟩
      (by decide) rfl,
   c4_block_field_policies.2.1
     ⟨some "00:10".data, none, none, none, some "long enough text here".data,
       none, none⟩ "00:10".data rfl rfl,
   c4_block_field_policies.2.2.1
     ⟨some "00:10".data, none, none, none, some "short".data, none, none⟩
     "00:10".data "short".data rfl rfl (by decide)⟩

/-! ## Claim C1 -/

/-- The structured-mode JSON document of the round-trip scenario. -/
def c1Doc : List Char :=
  ("\x7b\"issues\":[\x7b\"start_timestamp\":\"00:10\",\"end_timestamp\":\"00:15\"," ++
   "\"severity\":\"high\",\"category\":\"medical_accuracy\"," ++
   "\"description\":\"Incorrect dosage mentioned.\"\x7d]," ++
   "\"summary\":\"Found one issue.\"\x7d").data

/-- C1: in structured mode, the round-trip document parses through
`AnalyzerService.analyze` to exactly one issue of severity high, and the
model-supplied summary "Found one issue." is kept verbatim. -/
theorem c1_structured_roundtrip :
    (analyzerServiceAnalyze none (some "https://example.com/img.png".data) none
        c1Doc 0).map (fun r => (r.issues.map Issue.severity, r.summary, r.total_issues))
      = .ok ([Severity.HIGH], "Found one issue.".data, 1) := by decide

/-! ## Claim C6 -/

/-- C6: every successfully produced analysis response — single-step
`analyze` and the Phase-1 initial analysis alike — has
`total_issues = len(issues)` by construction. -/
theorem c6_total_issues_invariant (video_url image_url : Option (List Char))
    (image_data : Option (List Nat)) (raw : List Char) (now : Nat)
    (image_id : List Char) (file_content : List Nat)
    (store : List (List Char × List Nat)) :
    (∀ r, videoAnalyzerAnalyze video_url image_url image_data raw now = .ok r →
      r.total_issues = r.issues.length) ∧
    (∀ r store2,
      analyzeInitial image_id file_content raw now store = .ok (r, store2) →
      r.total_issues = r.issues.length) := by
  constructor
  · intro r h
    simp only [videoAnalyzerAnalyze] at h
    split_ifs at h
    all_goals
      cases hp : parseIssues raw with
      | error e => rw [hp] at h; simp [bind, Except.bind] at h
      | ok issues =>
        rw [hp] at h
        simp only [bind, Except.bind, Except.ok.injEq] at h
        rw [← h]
  · intro r store2 h
    simp only [analyzeInitial] at h
    cases hp : parseIssues raw with
    | error e => rw [hp] at h; simp [bind, Except.bind] at h
    | ok issues =>
      rw [hp] at h
      simp only [bind, Except.bind, Except.ok.injEq, Prod.mk.injEq] at h
      rw [← h.1]

/-- Witness for C6: both invariants read off a concrete successful run. -/
theorem c6_total_issues_invariant_witness :
    (AnalyzeResponse.mk "u".data "u".data 0 []
        "No significant medical accuracy issues identified in this video.".data
        0).total_issues
      = (AnalyzeResponse.mk "u".data "u".data 0 []
        "No significant medical accuracy issues identified in this video.".data
        0).issues.length ∧
    (AnalyzeInitialResponse.mk "U1".data "uploaded_image_U1".data 0 []
        "No significant medical accuracy issues identified in this video.".data
        0).total_issues
      = (AnalyzeInitialResponse.mk "U1".data "uploaded_image_U1".data 0 []
        "No significant medical accuracy issues identified in this video.".data
        0).issues.length :=
  ⟨(c6_total_issues_invariant (some "u".data) none none
      "NO ISSUES FOUND".data 0 "U1".data [1] []).1
      (AnalyzeResponse.mk "u".data "u".data 0 []
        "No significant medical accuracy issues identified in this video.".data 0)
      (by decide),
   (c6_total_issues_invariant (some "u".data) none none
      "NO ISSUES FOUND".data 0 "U1".data [1] []).2
      (AnalyzeInitialResponse.mk "U1".data "uploaded_image_U1".data 0 []
        "No significant medical accuracy issues identified in this video.".data 0)
      [("U1".data, [1])] (by decide)⟩

/-! ## Claim C10: split/join facts -/

/-- Splitting never yields the empty list of parts. -/
theorem splitChar_ne_nil (sep : Char) (s : List Char) : splitChar sep s ≠ [] := by
  cases s with
  | nil => simp [splitChar]
  | cons c t =>
    unfold splitChar
    split_ifs
    · simp
    · cases h : splitChar sep t <;> simp

/-- Python split distributes over an explicit separator occurrence. -/
theorem splitChar_append (sep : Char) (x y : List Char) :
    splitChar sep (x ++ sep :: y) = splitChar sep x ++ splitChar sep y := by
  induction x with
  | nil => simp [splitChar]
  | cons c t ih =>
    by_cases hc : c = sep
    · subst hc
      simp [splitChar, ih]
    · obtain ⟨h, r, hr⟩ := List.exists_cons_of_ne_nil (splitChar_ne_nil sep t)
      have e1 : splitChar sep (t ++ sep :: y) = h :: (r ++ splitChar sep y) := by
        rw [ih, hr]; rfl
      have e2 : splitChar sep (c :: t) = (c :: h) :: r := by
        simp [splitChar, hc, hr]
      rw [List.cons_append, e2]
      simp only [splitChar, if_neg hc, e1, List.cons_append]

/-- A separator-free string splits into itself. -/
theorem splitChar_of_not_mem (sep : Char) (y : List Char) (h : sep ∉ y) :
    splitChar sep y = [y] := by
  induction y with
  | nil => rfl
  | cons c t ih =>
    have hc : ¬ c = sep := fun hh => h (hh ▸ List.mem_cons_self c t)
    have ht : sep ∉ t := fun hh => h (List.mem_cons_of_mem c hh)
    simp [splitChar, hc, ih ht]

/-- Python `sep.join(s.split(sep)) == s`. -/
theorem joinChar_splitChar (sep : Char) (x : List Char) :
    joinChar sep (splitChar sep x) = x := by
  induction x with
  | nil => rfl
  | cons c t ih =>
    obtain ⟨h, r, hr⟩ := List.exists_cons_of_ne_nil (splitChar_ne_nil sep t)
    by_cases hc : c = sep
    · rw [hc]
      have hsp : splitChar sep (sep :: t) = [] :: h :: r := by
        simp [splitChar, hr]
      rw [hsp]
      have hjoin : joinChar sep ([] :: h :: r) = sep :: joinChar sep (h :: r) := rfl
      rw [hjoin, ← hr, ih]
    · have hsp : splitChar sep (c :: t) = (c :: h) :: r := by
        simp [splitChar, hc, hr]
      rw [hsp]
      have ihr : joinChar sep (h :: r) = t := by rw [← hr]; exact ih
      cases r with
      | nil =>
        simp only [joinChar] at ihr ⊢
        rw [ihr]
      | cons r1 rs =>
        have h1 : joinChar sep ((c :: h) :: r1 :: rs)
            = (c :: h) ++ sep :: joinChar sep (r1 :: rs) := rfl
        have h2 : joinChar sep (h :: r1 :: rs)
            = h ++ sep :: joinChar sep (r1 :: rs) := rfl
        rw [h1, List.cons_append, ← h2, ihr]

/-- A decimal digit is never an underscore. -/
theorem decDigitChar_ne_underscore (k : Nat) (hk : k < 10) :
    decDigitChar k ≠ '_' := by
  interval_cases k <;> decide

/-- The decimal rendering worker introduces no underscore. -/
theorem natDecGo_no_underscore (fuel : Nat) : ∀ (n : Nat) (acc : List Char),
    '_' ∉ acc → '_' ∉ natDecGo fuel n acc := by
  induction fuel with
  | zero => intro n acc hacc; simpa [natDecGo] using hacc
  | succ fuel ih =>
    intro n acc hacc
    unfold natDecGo
    split_ifs with hn
    · intro hmem
      rcases List.mem_cons.mp hmem with h | h
      · exact decDigitChar_ne_underscore n hn h.symm
      · exact hacc h
    · refine ih (n / 10) _ ?_
      intro hmem
      rcases List.mem_cons.mp hmem with h | h
      · exact decDigitChar_ne_underscore (n % 10) (Nat.mod_lt _ (by omega)) h.symm
      · exact hacc h

/-- A rendered issue index contains no underscore. -/
theorem natDec_no_underscore (n : Nat) : '_' ∉ natDec n :=
  natDecGo_no_underscore _ _ _ (by simp)

/-- Dropping the trailing `_{index}` from a composite id recovers the
upload id exactly. -/
theorem recover_issueIdOf (U : List Char) (idx : Nat) :
    recoverImageId (issueIdOf U idx) = U := by
  unfold recoverImageId issueIdOf
  rw [splitChar_append '_' U (natDec idx),
    splitChar_of_not_mem '_' (natDec idx) (natDec_no_underscore idx),
    List.dropLast_concat]
  exact joinChar_splitChar '_' U

/-- The legacy model reply of the Phase-1 concrete scenario: two issues. -/
def c10TwoIssueRaw : List Char :=
  ("ISSUE:\nStart: 00:10\nEnd: 00:15\nSeverity: high\nCategory: medical_accuracy\n" ++
   "Description: Incorrect dosage mentioned here.\n" ++
   "ISSUE:\nStart: 00:20\nEnd: 00:25\nSeverity: low\nCategory: visual_quality\n" ++
   "Description: Poor lighting in this frame shot.\n").data

/-- C10: the id scheme round-trips — Phase 1 assigns `{U}_{i}` in order
(the concrete two-issue run under `U1` yields `U1_0`, `U1_1`, with the
bytes stored under `U1`), Phase-2 recovery of any `{U}_{i}` yields exactly
`U`, and the cached bytes are then found again. -/
theorem c10_id_roundtrip :
    (∀ U idx, recoverImageId (issueIdOf U idx) = U) ∧
    (analyzeInitial "U1".data [1, 2, 3] c10TwoIssueRaw 0 []).map
        (fun p => (p.1.issues.map IssueWithoutLocation.issue_id,
          storeGet p.2 "U1".data))
      = .ok (["U1_0".data, "U1_1".data], some [1, 2, 3]) ∧
    (∀ store U bytes idx, storeGet store U = some bytes → bytes ≠ [] →
      phase2Resolve store (issueIdOf U idx) none = .ok (.inl bytes)) := by
  refine ⟨recover_issueIdOf, by decide, ?_⟩
  intro store U bytes idx hget hne
  simp only [phase2Resolve, recover_issueIdOf, hget]
  rw [if_neg (by simpa using hne)]

/-- Witness for C10: the Phase-2 lookup applied at a concrete store. -/
theorem c10_id_roundtrip_witness :
    phase2Resolve [("U1".data, [1, 2, 3])] (issueIdOf "U1".data 0) none
      = .ok (.inl [1, 2, 3]) :=
  c10_id_roundtrip.2.2 [("U1".data, [1, 2, 3])] "U1".data [1, 2, 3] 0
    (by decide) (by decide)

/-! ## Claim C7: the severity-count dict and its sort -/

/-- The number of issues carrying a given severity. -/
def countSev (s : Severity) (issues : List Issue) : Nat :=
  (issues.map Issue.severity).count s

/-- Python `severity_counts.get(s, 0)` on the association-list dict. -/
def lookupCount : List (Severity × Nat) → Severity → Nat
  | [], _ => 0
  | (k, c) :: t, s => if k = s then c else lookupCount t s

/-- The keys of the dict, in insertion order. -/
def keysOf (l : List (Severity × Nat)) : List Severity := l.map Prod.fst

/-- The severity indices are distinct across the enumeration. -/
theorem sevIndex_inj (a b : Severity) (h : sevIndex a = sevIndex b) : a = b := by
  cases a <;> cases b <;> first | rfl | (exact absurd h (by decide))

theorem lookupCount_bump_self (acc : List (Severity × Nat)) (s : Severity) :
    lookupCount (bumpCount acc s) s = lookupCount acc s + 1 := by
  induction acc with
  | nil => simp [bumpCount, lookupCount]
  | cons p t ih =>
    obtain ⟨k, c⟩ := p
    by_cases hk : k = s
    · subst hk
      simp [bumpCount, lookupCount]
    · simp [bumpCount, lookupCount, hk, ih]

theorem lookupCount_bump_other (acc : List (Severity × Nat)) (s k : Severity)
    (h : k ≠ s) : lookupCount (bumpCount acc s) k = lookupCount acc k := by
  induction acc with
  | nil => simp [bumpCount, lookupCount, Ne.symm h]
  | cons p t ih =>
    obtain ⟨k2, c⟩ := p
    by_cases hk2 : k2 = s
    · subst hk2
      simp [bumpCount, lookupCount, Ne.symm h]
    · simp [bumpCount, lookupCount, hk2, ih]

theorem mem_keysOf_bump (acc : List (Severity × Nat)) (s k : Severity) :
    k ∈ keysOf (bumpCount acc s) ↔ k ∈ keysOf acc ∨ k = s := by
  induction acc with
  | nil => simp [bumpCount, keysOf]
  | cons p t ih =>
    obtain ⟨k2, c⟩ := p
    by_cases hk2 : k2 = s
    · subst hk2
      simp [bumpCount, keysOf]
      tauto
    · simp only [bumpCount, if_neg hk2, keysOf, List.map_cons, List.mem_cons] at ih ⊢
      rw [ih]
      tauto

theorem keysOf_bump_nodup (acc : List (Severity × Nat)) (s : Severity)
    (h : (keysOf acc).Nodup) : (keysOf (bumpCount acc s)).Nodup := by
  induction acc with
  | nil => simp [bumpCount, keysOf]
  | cons p t ih =>
    obtain ⟨k2, c⟩ := p
    simp only [keysOf, List.map_cons, List.nodup_cons] at h
    by_cases hk2 : k2 = s
    · subst hk2
      simpa [bumpCount, keysOf, List.nodup_cons] using h
    · simp only [bumpCount, if_neg hk2, keysOf, List.map_cons, List.nodup_cons]
      refine ⟨?_, ih h.2⟩
      rw [show (bumpCount t s).map Prod.fst = keysOf (bumpCount t s) from rfl,
        mem_keysOf_bump]
      push_neg
      exact ⟨h.1, hk2⟩

theorem pos_bump (acc : List (Severity × Nat)) (s : Severity)
    (h : ∀ p ∈ acc, 0 < p.2) : ∀ p ∈ bumpCount acc s, 0 < p.2 := by
  induction acc with
  | nil =>
    intro p hp
    simp only [bumpCount, List.mem_singleton] at hp
    subst hp
    exact Nat.one_pos
  | cons q t ih =>
    obtain ⟨k2, c⟩ := q
    by_cases hk2 : k2 = s
    · subst hk2
      intro p hp
      rw [show bumpCount ((k2, c) :: t) k2 = (k2, c + 1) :: t from by
        simp [bumpCount]] at hp
      rcases List.mem_cons.mp hp with h1 | h1
      · rw [h1]
        exact Nat.succ_pos c
      · exact h p (List.mem_cons_of_mem _ h1)
    · intro p hp
      simp only [bumpCount, if_neg hk2, List.mem_cons] at hp
      rcases hp with rfl | hp
      · exact h _ (List.mem_cons_self _ _)
      · exact ih (fun q hq => h q (List.mem_cons_of_mem _ hq)) p hp

/-- The dict built by the fold: lookups accumulate the severity counts. -/
theorem lookupCount_foldl (issues : List Issue) :
    ∀ (acc : List (Severity × Nat)) (s : Severity),
    lookupCount (issues.foldl (fun a i => bumpCount a i.severity) acc) s
      = lookupCount acc s + countSev s issues := by
  induction issues with
  | nil => intro acc s; simp [countSev]
  | cons i t ih =>
    intro acc s
    rw [List.foldl_cons, ih]
    by_cases hs : i.severity = s
    · rw [hs, lookupCount_bump_self]
      have hct : countSev s (i :: t) = countSev s t + 1 := by
        simp [countSev, List.count_cons, hs]
      rw [hct]
      omega
    · rw [lookupCount_bump_other _ _ _ (fun hh => hs hh.symm)]
      simp [countSev, List.count_cons, hs]

theorem keys_foldl_nodup (issues : List Issue) :
    ∀ acc : List (Severity × Nat), (keysOf acc).Nodup →
    (keysOf (issues.foldl (fun a i => bumpCount a i.severity) acc)).Nodup := by
  induction issues with
  | nil => intro acc h; simpa using h
  | cons i t ih =>
    intro acc h
    rw [List.foldl_cons]
    exact ih _ (keysOf_bump_nodup acc i.severity h)

theorem mem_keys_foldl (issues : List Issue) :
    ∀ (acc : List (Severity × Nat)) (k : Severity),
    k ∈ keysOf (issues.foldl (fun a i => bumpCount a i.severity) acc)
      ↔ k ∈ keysOf acc ∨ k ∈ issues.map Issue.severity := by
  induction issues with
  | nil => intro acc k; simp
  | cons i t ih =>
    intro acc k
    rw [List.foldl_cons, ih, mem_keysOf_bump]
    simp only [List.map_cons, List.mem_cons]
    tauto

theorem pos_foldl (issues : List Issue) :
    ∀ acc : List (Severity × Nat), (∀ p ∈ acc, 0 < p.2) →
    ∀ p ∈ issues.foldl (fun a i => bumpCount a i.severity) acc, 0 < p.2 := by
  induction issues with
  | nil => intro acc h; simpa using h
  | cons i t ih =>
    intro acc h
    rw [List.foldl_cons]
    exact ih _ (pos_bump acc i.severity h)

/-- Membership in a positively-counted, key-nodup association list is
fixed by the lookup function. -/
theorem mem_iff_lookupCount (l : List (Severity × Nat))
    (hnd : (keysOf l).Nodup) (hpos : ∀ p ∈ l, 0 < p.2) (s : Severity) (c : Nat) :
    (s, c) ∈ l ↔ (lookupCount l s = c ∧ c ≠ 0) := by
  induction l with
  | nil =>
    simp only [List.not_mem_nil, lookupCount, false_iff]
    omega
  | cons p t ih =>
    obtain ⟨k, c2⟩ := p
    simp only [keysOf, List.map_cons, List.nodup_cons] at hnd
    have hc2 : 0 < c2 := hpos _ (List.mem_cons_self _ _)
    have hpos' : ∀ q ∈ t, 0 < q.2 :=
      fun q hq => hpos q (List.mem_cons_of_mem _ hq)
    by_cases hks : k = s
    · subst hks
      simp only [List.mem_cons, lookupCount, if_pos rfl]
      constructor
      · rintro (h | h)
        · obtain ⟨-, rfl⟩ := Prod.mk.inj h.symm
          exact ⟨rfl, by omega⟩
        · exact absurd (List.mem_map_of_mem Prod.fst h) hnd.1
      · rintro ⟨rfl, -⟩
        exact Or.inl rfl
    · simp only [List.mem_cons, lookupCount, if_neg hks]
      rw [← ih hnd.2 hpos']
      constructor
      · rintro (h | h)
        · exact absurd (congrArg Prod.fst h) (by simpa using fun hh => hks hh.symm)
        · exact h
      · exact Or.inr


/-- The canonical rendering of the severity counts: one entry per present
severity, ordered from most to least severe. -/
def canonicalCounts (issues : List Issue) : List (Severity × Nat) :=
  [Severity.CRITICAL, Severity.HIGH, Severity.MEDIUM, Severity.LOW].filterMap
    (fun s => if countSev s issues = 0 then none else some (s, countSev s issues))

theorem mem_canonicalCounts (issues : List Issue) (p : Severity × Nat) :
    p ∈ canonicalCounts issues ↔ (countSev p.1 issues = p.2 ∧ p.2 ≠ 0) := by
  obtain ⟨s, c⟩ := p
  simp only [canonicalCounts, List.mem_filterMap]
  constructor
  · rintro ⟨a, -, hfa⟩
    split_ifs at hfa with h0
    cases Option.some.inj hfa
    exact ⟨rfl, h0⟩
  · rintro ⟨hc, h0⟩
    refine ⟨s, by cases s <;> simp, ?_⟩
    rw [if_neg (hc ▸ h0), hc]

theorem severityCounts_lookup (issues : List Issue) (s : Severity) :
    lookupCount (severityCounts issues) s = countSev s issues := by
  have := lookupCount_foldl issues [] s
  simpa [severityCounts, lookupCount] using this

theorem severityCounts_keys_nodup (issues : List Issue) :
    (keysOf (severityCounts issues)).Nodup :=
  keys_foldl_nodup issues [] (by simp [keysOf])

theorem severityCounts_pos (issues : List Issue) :
    ∀ p ∈ severityCounts issues, 0 < p.2 :=
  pos_foldl issues [] (by simp)

theorem mem_severityCounts (issues : List Issue) (p : Severity × Nat) :
    p ∈ severityCounts issues ↔ (countSev p.1 issues = p.2 ∧ p.2 ≠ 0) := by
  obtain ⟨s, c⟩ := p
  rw [mem_iff_lookupCount _ (severityCounts_keys_nodup issues)
    (severityCounts_pos issues), severityCounts_lookup]

/-- The dict is a permutation of its canonical ordered rendering. -/
theorem severityCounts_perm_canonical (issues : List Issue) :
    (severityCounts issues).Perm (canonicalCounts issues) := by
  have hnd1 : (severityCounts issues).Nodup :=
    List.Nodup.of_map Prod.fst (severityCounts_keys_nodup issues)
  have hnd2 : (canonicalCounts issues).Nodup := by
    refine List.Nodup.filterMap ?_ (by decide)
    intro a a' b hb hb'
    have ha : b.1 = a := by
      rw [Option.mem_def] at hb
      split_ifs at hb with h0
      exact (congrArg Prod.fst (Option.some.inj hb)).symm
    have ha' : b.1 = a' := by
      rw [Option.mem_def] at hb'
      split_ifs at hb' with h0
      exact (congrArg Prod.fst (Option.some.inj hb')).symm
    rw [← ha, ha']
  rw [List.perm_ext_iff_of_nodup hnd1 hnd2]
  intro p
  rw [mem_severityCounts, mem_canonicalCounts]

/-- Entries kept by the canonical filter carry their severity as key. -/
theorem canonical_entry_fst (issues : List Issue) (a : Severity)
    (b : Severity × Nat)
    (hb : (if countSev a issues = 0 then none
      else some (a, countSev a issues)) = some b) : b.1 = a := by
  split_ifs at hb with h0
  exact (congrArg Prod.fst (Option.some.inj hb)).symm

/-- The canonical rendering is strictly ordered from most to least severe. -/
theorem canonical_sorted_strict (issues : List Issue) :
    (canonicalCounts issues).Pairwise
      (fun p q => sevIndex q.1 < sevIndex p.1) := by
  unfold canonicalCounts
  rw [List.pairwise_filterMap]
  refine List.pairwise_cons.mpr ⟨?_, List.pairwise_cons.mpr ⟨?_,
    List.pairwise_cons.mpr ⟨?_, List.pairwise_singleton _ _⟩⟩⟩ <;>
    · intro a' ha' b hb b' hb'
      have h1 := canonical_entry_fst issues _ b hb
      have h2 := canonical_entry_fst issues a' b' hb'
      rw [h1, h2]
      fin_cases ha' <;> decide

/-- Inserting into a descending-sorted list keeps it descending-sorted. -/
theorem insertDesc_perm (p : Severity × Nat) (l : List (Severity × Nat)) :
    (insertDesc p l).Perm (p :: l) := by
  induction l with
  | nil => exact List.Perm.refl _
  | cons q t ih =>
    unfold insertDesc
    split_ifs
    · exact (ih.cons q).trans (List.Perm.swap p q t)
    · exact List.Perm.refl _

theorem sortCountsDesc_perm (l : List (Severity × Nat)) :
    (sortCountsDesc l).Perm l := by
  induction l with
  | nil => exact List.Perm.refl _
  | cons p t ih =>
    exact (insertDesc_perm p (sortCountsDesc t)).trans (ih.cons p)

theorem insertDesc_sorted (p : Severity × Nat) (l : List (Severity × Nat))
    (h : l.Pairwise (fun a b => sevIndex b.1 ≤ sevIndex a.1)) :
    (insertDesc p l).Pairwise (fun a b => sevIndex b.1 ≤ sevIndex a.1) := by
  induction l with
  | nil => simp [insertDesc]
  | cons q t ih =>
    obtain ⟨hq, ht⟩ := List.pairwise_cons.mp h
    unfold insertDesc
    split_ifs with hle
    · refine List.pairwise_cons.mpr ⟨?_, ih ht⟩
      intro x hx
      rcases List.mem_cons.mp ((insertDesc_perm p t).mem_iff.mp hx) with rfl | hxt
      · exact hle
      · exact hq x hxt
    · refine List.pairwise_cons.mpr ⟨?_, h⟩
      intro x hx
      rcases List.mem_cons.mp hx with rfl | hxt
      · omega
      · have := hq x hxt
        omega

theorem sortCountsDesc_sorted (l : List (Severity × Nat)) :
    (sortCountsDesc l).Pairwise (fun a b => sevIndex b.1 ≤ sevIndex a.1) := by
  induction l with
  | nil => simp [sortCountsDesc]
  | cons p t ih => exact insertDesc_sorted p (sortCountsDesc t) ih

/-- On the severity dict, whose keys are distinct, the sort is strictly
descending. -/
theorem sortCounts_sorted_strict (issues : List Issue) :
    (sortCountsDesc (severityCounts issues)).Pairwise
      (fun p q => sevIndex q.1 < sevIndex p.1) := by
  have h1 := sortCountsDesc_sorted (severityCounts issues)
  have hkeys : (severityCounts issues).Pairwise (fun p q => p.1 ≠ q.1) := by
    have := severityCounts_keys_nodup issues
    rw [keysOf, List.Nodup, List.pairwise_map] at this
    exact this
  have h2 : (sortCountsDesc (severityCounts issues)).Pairwise
      (fun p q => p.1 ≠ q.1) :=
    ((sortCountsDesc_perm (severityCounts issues)).pairwise_iff
      (fun h => h.symm)).mpr hkeys
  refine (h1.and h2).imp ?_
  rintro a b ⟨hle, hne⟩
  exact Nat.lt_of_le_of_ne hle (fun he => hne (sevIndex_inj _ _ he).symm)

/-- The sorted severity dict equals the canonical rendering. -/
theorem sortCounts_eq_canonical (issues : List Issue) :
    sortCountsDesc (severityCounts issues) = canonicalCounts issues := by
  haveI : IsAntisymm (Severity × Nat) (fun p q => sevIndex q.1 < sevIndex p.1) :=
    ⟨fun a b h1 h2 => absurd h1 (by omega)⟩
  exact List.eq_of_perm_of_sorted
    ((sortCountsDesc_perm _).trans (severityCounts_perm_canonical issues))
    (sortCounts_sorted_strict issues) (canonical_sorted_strict issues)

/-- A non-empty issue list yields a non-empty severity dict. -/
theorem severityCounts_ne_nil (issues : List Issue) (h : issues ≠ []) :
    severityCounts issues ≠ [] := by
  cases issues with
  | nil => exact absurd rfl h
  | cons i t =>
    intro hc
    have hm : i.severity ∈ keysOf (severityCounts (i :: t)) :=
      (mem_keys_foldl (i :: t) [] i.severity).mpr (Or.inr (by simp))
    rw [hc] at hm
    simp [keysOf] at hm

/-- A minimal valid issue record carrying a given severity. -/
def testIssue (s : Severity) : Issue :=
  ⟨"00:00".data, "00:00".data, s, .OTHER, "0123456789".data, none, none⟩

/-- C7: summary generation is a pure function of the severity multiset —
permuting the issues never changes the output; the empty list gives the
fixed sentence; severities [high, low, high] render as "2 high, 1 low"
(most severe first), and "issue" is singular exactly for one issue. -/
theorem c7_summary_deterministic_ordered :
    (∀ (is1 is2 : List Issue) (r1 r2 : List Char),
      (is1.map Issue.severity).Perm (is2.map Issue.severity) →
      generateSummary is1 r1 = generateSummary is2 r2) ∧
    generateSummary [] [] =
      "No significant medical accuracy issues identified in this video.".data ∧
    (∀ (i1 i2 i3 : Issue) (r : List Char), i1.severity = .HIGH →
      i2.severity = .LOW → i3.severity = .HIGH →
      generateSummary [i1, i2, i3] r =
        "Analysis identified 3 potential issues (2 high, 1 low) requiring review.".data) ∧
    (∀ (i1 : Issue) (r : List Char), i1.severity = .HIGH →
      generateSummary [i1] r =
        "Analysis identified 1 potential issue (1 high) requiring review.".data) := by
  have hgen : ∀ (is1 is2 : List Issue) (r1 r2 : List Char),
      (is1.map Issue.severity).Perm (is2.map Issue.severity) →
      generateSummary is1 r1 = generateSummary is2 r2 := by
    intro is1 is2 r1 r2 hp
    have hlen : is1.length = is2.length := by
      have := hp.length_eq
      simpa using this
    by_cases h1 : is1 = []
    · have h2 : is2 = [] := by
        rw [h1] at hlen
        exact List.eq_nil_of_length_eq_zero hlen.symm
      rw [h1, h2]
      rfl
    · have h2 : is2 ≠ [] := by
        intro hc
        rw [hc] at hlen
        exact h1 (List.eq_nil_of_length_eq_zero hlen)
      have hcnt : ∀ s, countSev s is1 = countSev s is2 := by
        intro s
        unfold countSev
        exact hp.count_eq s
      have hcanon : canonicalCounts is1 = canonicalCounts is2 := by
        simp only [canonicalCounts, hcnt]
      simp only [generateSummary]
      rw [if_neg (show ¬(is1.isEmpty = true) by simpa using h1),
        if_neg (show ¬(is2.isEmpty = true) by simpa using h2),
        if_neg (show ¬((severityCounts is1).isEmpty = true) by
          simpa using severityCounts_ne_nil is1 h1),
        if_neg (show ¬((severityCounts is2).isEmpty = true) by
          simpa using severityCounts_ne_nil is2 h2),
        sortCounts_eq_canonical, sortCounts_eq_canonical, hcanon, hlen]
  refine ⟨hgen, by decide, ?_, ?_⟩
  · intro i1 i2 i3 r h1 h2 h3
    have hperm := hgen [i1, i2, i3]
      [testIssue .HIGH, testIssue .LOW, testIssue .HIGH] r []
      (by simp only [List.map_cons, List.map_nil, h1, h2, h3, testIssue]
          exact List.Perm.refl _)
    rw [hperm]
    decide
  · intro i1 r h1
    have hperm := hgen [i1] [testIssue .HIGH] r []
      (by simp only [List.map_cons, List.map_nil, h1, testIssue]
          exact List.Perm.refl _)
    rw [hperm]
    decide

/-- Witness for C7: the order-independence and rendering at concrete
issue lists — [high, low, high] and its permutation [low, high, high]
give the identical "2 high, 1 low" summary. -/
theorem c7_summary_deterministic_ordered_witness :
    generateSummary [testIssue .HIGH, testIssue .LOW, testIssue .HIGH] [] =
      generateSummary [testIssue .LOW, testIssue .HIGH, testIssue .HIGH] "x".data ∧
    generateSummary [testIssue .HIGH, testIssue .LOW, testIssue .HIGH] [] =
      "Analysis identified 3 potential issues (2 high, 1 low) requiring review.".data :=
  ⟨c7_summary_deterministic_ordered.1
      [testIssue .HIGH, testIssue .LOW, testIssue .HIGH]
      [testIssue .LOW, testIssue .HIGH, testIssue .HIGH] [] "x".data (by decide),
   c7_summary_deterministic_ordered.2.2.1 (testIssue .HIGH) (testIssue .LOW)
     (testIssue .HIGH) [] rfl rfl rfl⟩

end LifeSciences
